import Mathlib

/-!
Verification development for the demeter burnt-area mapping pipeline.

The Python sources are shallowly embedded as executable Lean definitions:

* timestamps are natural numbers counting microseconds from a fixed origin
  (the literal scenarios use 2023-01-01 as day 0), calendar dates are day
  numbers, and `datetime.combine` with the minimal or maximal time of day
  becomes `startOfDay` and `endOfDay`;
* `numpy.searchsorted` on a sorted list is the first index whose element
  compares the given way with the target, and Python list indexing with its
  negative-index wrap-around and IndexError is `pyGet`;
* raster pixels are rationals; the IEEE division artifacts that numpy
  produces on a zero denominator (NaN and signed infinities) are the extra
  constructors of `PixVal`;
* file writes are recorded as `WriteCall` values carrying the arguments the
  source passes to `write_to_file`.
-/

namespace Demeter

/- ## Time model (utils.py helpers) -/

/-- Microseconds per calendar day. -/
def usPerDay : Nat := 86400000000

/-- Microseconds per hour, used to build the literal scenarios. -/
def usPerHour : Nat := 3600000000

/-- Embeds `datetime.replace(microsecond=0)`: truncate the microsecond field. -/
def stripMicro (t : Nat) : Nat := t / 1000000 * 1000000

/-- Embeds `datetime.combine(date, datetime.min.time())`: midnight of day `d`. -/
def startOfDay (d : Nat) : Nat := d * usPerDay

/-- Embeds `datetime.combine(date, datetime.max.time())`: 23:59:59.999999 of day `d`. -/
def endOfDay (d : Nat) : Nat := d * usPerDay + (usPerDay - 1)

/-- A STAC catalog item as used by `utils.get_closest_date`: only its
`properties["created"]` acquisition timestamp matters, in microseconds. -/
structure CatalogItem where
  created : Nat
deriving DecidableEq

/-- The parsed, microsecond-stripped timestamps of a catalog list
(the list comprehension in `utils.get_closest_date`, lines 37-40). -/
def stripTs (l : List CatalogItem) : List Nat :=
  l.map fun it => stripMicro it.created

/-- Embeds `date_list.sort()`: the stripped timestamps in ascending order. -/
def sortTs (l : List CatalogItem) : List Nat :=
  List.insertionSort (· ≤ ·) (stripTs l)

/-- Python list indexing: a negative index wraps around once
(`l[-k]` is `l[len(l)-k]` when `k ≤ len(l)`), any other out-of-range
index raises IndexError, embedded as `none`. -/
def pyGet (l : List α) (i : Int) : Option α :=
  if 0 ≤ i then l[i.toNat]?
  else if -i ≤ (l.length : Int) then l[l.length - (-i).toNat]? else none

/-- Embeds `utils.get_closest_date` (lines 35-50) up to the final
`strftime("%Y%m%d")`: sort the stripped timestamps, locate the target with
`np.searchsorted` (`side="left"` is the first index whose element is at least
the target, `side="right"` the first index whose element is strictly greater),
then index the sorted Python list at `position - 1` for the start date and at
`position + 1` for the end date.  The result is the selected timestamp, or
`none` for an IndexError. -/
def get_closest_elem (date_list : List CatalogItem) (date : Nat) (start : Bool) : Option Nat :=
  let ts := sortTs date_list
  if start then
    pyGet ts (Int.ofNat (ts.findIdx fun t => decide (startOfDay date ≤ t)) - 1)
  else
    pyGet ts (Int.ofNat (ts.findIdx fun t => decide (endOfDay date < t)) + 1)

/-- Embeds the final `strftime("%Y%m%d")` of `utils.get_closest_date`:
at day granularity the formatted string is determined by the day number. -/
def formatDay (t : Nat) : Nat := t / usPerDay

/-- Embeds `utils.get_closest_date` (lines 35-50): the selected timestamp
formatted at day granularity, `none` for an IndexError. -/
def get_closest_date (date_list : List CatalogItem) (date : Nat) (start : Bool) : Option Nat :=
  (get_closest_elem date_list date start).map formatDay

/- ## DataRetrieval (data_retrieval.py) -/

/-- Error message of `DataRetrieval.check_items` (lines 79-84), with the
retrieved count interpolated. -/
def insufficientMsg (n : Nat) : String :=
  s!"Insufficient number of data retrieved, minimum requirement: 2, retrieved: {n}."

/-- Embeds `DataRetrieval.check_items` (lines 79-84): raise `AttributeError`
when fewer than `required_data` items were retrieved. -/
def check_items (items : List CatalogItem) (required_data : Nat := 2) : Except String Unit :=
  if items.length < required_data then
    Except.error (insufficientMsg items.length)
  else
    Except.ok ()

/-- The download loop of `DataRetrieval.get_data` (lines 96-107): for each
item, evaluate the pre-event date match first, then the post-event one, and
record which items are downloaded with which event label (`true` is pre).
`matchFn it d` abstracts the substring test `formatted d in it.id`; an
IndexError inside `get_closest_date` propagates. -/
def get_data_loop (matchFn : CatalogItem → Nat → Bool) (items : List CatalogItem)
    (startDate endDate : Nat) : List CatalogItem → Except String (List (CatalogItem × Bool))
  | [] => Except.ok []
  | it :: rest =>
    match get_closest_date items startDate true with
    | none => Except.error "IndexError: list index out of range"
    | some preD =>
      if matchFn it preD then
        (get_data_loop matchFn items startDate endDate rest).map fun ds => (it, true) :: ds
      else
        match get_closest_date items endDate false with
        | none => Except.error "IndexError: list index out of range"
        | some postD =>
          if matchFn it postD then
            (get_data_loop matchFn items startDate endDate rest).map fun ds => (it, false) :: ds
          else
            get_data_loop matchFn items startDate endDate rest

/-- Embeds `DataRetrieval.get_data` (lines 91-107) after the external catalog
query: `check_items` runs first, then the selection and download loop. -/
def get_data (matchFn : CatalogItem → Nat → Bool) (items : List CatalogItem)
    (startDate endDate : Nat) : Except String (List (CatalogItem × Bool)) :=
  match check_items items with
  | Except.error m => Except.error m
  | Except.ok _ => get_data_loop matchFn items startDate endDate items

/- ## Raster pixel algebra (burnt_area_mapper.py) -/

/-- A pixel value: a finite rational, or one of the IEEE artifacts numpy
produces when dividing by zero. -/
inductive PixVal where
  | num (q : ℚ)
  | nan
  | posInf
  | negInf
deriving DecidableEq

/-- A pixel value is finite exactly when it is a plain number. -/
def PixVal.isFinite : PixVal → Bool
  | PixVal.num _ => true
  | _ => false

/-- Embeds numpy elementwise division on exact values: an ordinary quotient
when the denominator is nonzero, otherwise NaN for 0/0 and a signed infinity
for a nonzero numerator. -/
def npDiv (a b : ℚ) : PixVal :=
  if b = 0 then
    if a = 0 then PixVal.nan else if 0 < a then PixVal.posInf else PixVal.negInf
  else
    PixVal.num (a / b)

/-- Elementwise combination of two 2-D arrays, numpy broadcasting not needed
because the bands are aligned to a common grid. -/
def zipWith2D (f : α → β → γ) (a : List (List α)) (b : List (List β)) : List (List γ) :=
  List.zipWith (List.zipWith f) a b

/-- Embeds the NBR expression of `Event.get_normalized_burnt_ratio`
(line 110): `(nir - swir) / (nir + swir)` elementwise. -/
def nbr_arr (nir swir : List (List ℚ)) : List (List PixVal) :=
  zipWith2D (fun x y => npDiv (x - y) (x + y)) nir swir

/-- Pixel lookup in a 2-D array. -/
def getPix (a : List (List α)) (i j : Nat) : Option α :=
  a[i]?.bind fun row => row[j]?

/-- An opened raster with finite pixel values, standing for a
`ukis_pysat.raster.Image` over a band array: pixel array plus CRS, affine
transform token and nodata value. -/
structure QRaster where
  arr : List (List ℚ)
  crs : Nat
  transform : Int
  nodata : ℚ
deriving DecidableEq

/-- The in-memory NBR raster built on lines 111-113: NBR pixel array with the
CRS, transform and nodata of the NIR input. -/
structure PRaster where
  arr : List (List PixVal)
  crs : Nat
  transform : Int
  nodata : ℚ
deriving DecidableEq

/-- The arguments of a `write_to_file` call that the claims are about. -/
structure WriteCall where
  nodataOut : ℚ
  compress : String
deriving DecidableEq

/-- Embeds `Event.get_normalized_burnt_ratio` (lines 107-117) from the point
where the cropped NIR and SWIR rasters are in memory: compute the NBR array,
build the in-memory raster from the NIR metadata, and record the
`write_to_file` call (dtype float32, `nodata=0`, `compress="lzw"`). -/
def nbr_event (nir swir : QRaster) : PRaster × WriteCall :=
  (⟨nbr_arr nir.arr swir.arr, nir.crs, nir.transform, nir.nodata⟩, ⟨0, "lzw"⟩)

/-- Embeds the `write_to_file` call of `Event.merge_tiles` (lines 74-77): the
mosaic itself comes from the external merge collaborator, the persisted file
always gets `nodata=0` and `compress="lzw"` whatever the tiles carry. -/
def merge_tiles_write (_tiles : List QRaster) : WriteCall :=
  ⟨0, "lzw"⟩

/-- Embeds `BurntAreaMapper.get_normalized_burnt_ratio_difference`
(lines 164-169): subtract the two NBR arrays elementwise, build the in-memory
raster from the pre-event metadata, and record the `write_to_file` call
(`nodata=0`, `compress="lzw"`). -/
def dnbr_compute (nbr_pre nbr_post : QRaster) : QRaster × WriteCall :=
  (⟨zipWith2D (fun a b => a - b) nbr_pre.arr nbr_post.arr,
    nbr_pre.crs, nbr_pre.transform, nbr_pre.nodata⟩, ⟨0, "lzw"⟩)

/- ## Geometry reconciliation (burnt_area_mapper.py, lines 152-159) -/

/-- A raster viewed at the granularity `check_geometries` needs: pixel array
shape, CRS and nodata value. -/
structure GImage where
  shape : Nat × Nat
  crs : Nat
  nodata : ℚ
deriving DecidableEq

/-- Modelled from the spec: the raster-I-O collaborator operation
`warp(dst_crs, nodata, target_align)` of section 6 is not part of this
repository; per the contract a target-aligned warp resamples the image onto
the target pixel grid, so the result carries the destination CRS, the given
nodata value and the target shape. -/
def GImage.warp (_img : GImage) (dst_crs : Nat) (nodata : ℚ) (target : GImage) : GImage :=
  ⟨target.shape, dst_crs, nodata⟩

/-- Embeds `BurntAreaMapper.check_geometries` (lines 152-159): warp the
pre-event raster onto the post-event raster when the shapes differ, then
return both. -/
def check_geometries (nbr_pre nbr_post : GImage) : GImage × GImage :=
  if nbr_pre.shape ≠ nbr_post.shape then
    (nbr_pre.warp nbr_post.crs nbr_post.nodata nbr_post, nbr_post)
  else
    (nbr_pre, nbr_post)

/- ## Event resource lifecycle (burnt_area_mapper.py, lines 30-43 and 97-100) -/

/-- Embeds `Event.get_rasters` (lines 97-100) as a handle trace.  SWIR is
opened first (handle 0), then NIR (handle 1); a missing band file makes the
`next(iter(...))` lookup raise before that handle is opened.  Returns the
`self.swir` and `self.nir` fields and the list of opened handles. -/
def get_rasters_trace (swirPresent nirPresent : Bool) : Option Nat × Option Nat × List Nat :=
  if swirPresent then
    if nirPresent then (some 0, some 1, [0, 1])
    else (some 0, none, [0])
  else (none, none, [])

/-- Embeds `Event.__exit__` (lines 35-43): `self.nir.close()` runs first;
when `self.nir` is `None` that line raises `AttributeError` and
`self.swir.close()` is never reached.  Returns the handles closed and whether
the exit handler itself raised. -/
def event_exit_trace (nir swir : Option Nat) : List Nat × Bool :=
  match nir, swir with
  | none, _ => ([], true)
  | some hn, none => ([hn], true)
  | some hn, some hs => ([hn, hs], false)

/-- One event processing scope: run `get_rasters`, then the context-manager
exit handler, as happens both on normal completion and when the body raises.
Returns (opened handles, closed handles, whether `__exit__` raised). -/
def event_scope_trace (swirPresent nirPresent : Bool) : List Nat × List Nat × Bool :=
  let r := get_rasters_trace swirPresent nirPresent
  let e := event_exit_trace r.2.1 r.1
  (r.2.2, e.1, e.2)

/- ## AOI resolution (aoi_check.py, lines 20-47) -/

/-- A shapely polygon at the granularity the AOI resolver needs: its extent. -/
structure SPolygon where
  minx : ℚ
  miny : ℚ
  maxx : ℚ
  maxy : ℚ
deriving DecidableEq

/-- The `bounds` property of a polygon. -/
def SPolygon.bounds (p : SPolygon) : ℚ × ℚ × ℚ × ℚ :=
  (p.minx, p.miny, p.maxx, p.maxy)

/-- The three runtime types the `data` argument of `AOI.__init__` can have. -/
inductive AOIInput where
  | strData (s : String)
  | pathData (p : String)
  | polyData (poly : SPolygon)

/-- Error message raised inside `pathlib.Path.joinpath` when the argument is
neither a string nor a path-like object. -/
def joinpathTypeErrorMsg : String :=
  "TypeError: argument should be a str or an os.PathLike object, not Polygon"

/-- Embeds `data_dir.joinpath(data)`: string and path arguments are joined,
a polygon argument raises `TypeError` inside the library call. -/
def pyJoinpath (dataDir : String) (d : AOIInput) : Except String String :=
  match d with
  | AOIInput.strData s => Except.ok (dataDir ++ "/" ++ s)
  | AOIInput.pathData p => Except.ok (dataDir ++ "/" ++ p)
  | AOIInput.polyData _ => Except.error joinpathTypeErrorMsg

/-- Substring test over character lists, embedding the Python expression
`"POLYGON" in data`. -/
def containsPOLYGON (s : String) : Bool :=
  s.data.tails.any fun t => "POLYGON".data.isPrefixOf t

/-- Embeds `AOI.get_feature` together with `AOI.get_features`
(lines 72-87): one feature gives its own extent, several give the extent of
their multipolygon union, none raises `AttributeError`. -/
def get_feature (fs : List SPolygon) : Except String (ℚ × ℚ × ℚ × ℚ) :=
  match fs with
  | [f] => Except.ok f.bounds
  | f :: rest =>
    Except.ok
      (rest.foldl
        (fun acc g =>
          (min acc.1 g.minx, min acc.2.1 g.miny, max acc.2.2.1 g.maxx, max acc.2.2.2 g.maxy))
        f.bounds)
  | [] => Except.error "AttributeError: the AOI does not contain any features"

/-- Embeds the dispatch of `AOI.__init__` (lines 20-47).  The external
collaborators are parameters: `wktParse` is the WKT parser returning the
geometry extent, `fileExists` the filesystem probe, `features` the vector
file reader.  A string input is probed for a WKT token and then for an
existing file; any non-string input first flows through
`data_dir.joinpath(data)` inside the `isinstance(..., Path)` test, so a
polygon input raises `TypeError` there and the
`isinstance(data, Polygon)` branch is unreachable. -/
def aoi_init (wktParse : String → Option (ℚ × ℚ × ℚ × ℚ)) (fileExists : String → Bool)
    (features : String → List SPolygon) (dataDir : String) (d : AOIInput) :
    Except String (ℚ × ℚ × ℚ × ℚ) :=
  match d with
  | AOIInput.strData s =>
    if containsPOLYGON s then
      match wktParse s with
      | some b => Except.ok b
      | none => Except.error "shapely.errors.GEOSException: malformed WKT"
    else if fileExists (dataDir ++ "/" ++ s) then
      get_feature (features (dataDir ++ "/" ++ s))
    else
      Except.error "TypeError: the provided data cannot be resolved to WKT or to a path"
  | _ =>
    match pyJoinpath dataDir d with
    | Except.error e => Except.error e
    | Except.ok p => get_feature (features p)

/- ## Concrete catalogs for the literal scenarios
(days are counted from 2023-01-01, so 2023-01-03 is day 2, 2023-01-20 day 19) -/

/-- Catalog of the literal spec scenario: acquisitions at 10:00 on
2023-01-01, 2023-01-05, 2023-01-15 and 2023-01-25. -/
def catFour : List CatalogItem :=
  [⟨0 * usPerDay + 10 * usPerHour⟩, ⟨4 * usPerDay + 10 * usPerHour⟩,
   ⟨14 * usPerDay + 10 * usPerHour⟩, ⟨24 * usPerDay + 10 * usPerHour⟩]

/-- Catalog with acquisitions at 10:00 on days 0, 14 and 24. -/
def catThree : List CatalogItem :=
  [⟨0 * usPerDay + 10 * usPerHour⟩, ⟨14 * usPerDay + 10 * usPerHour⟩,
   ⟨24 * usPerDay + 10 * usPerHour⟩]

/-- Catalog with acquisitions at 10:00 on days 4 and 9, both after day 0. -/
def catTwo : List CatalogItem :=
  [⟨4 * usPerDay + 10 * usPerHour⟩, ⟨9 * usPerDay + 10 * usPerHour⟩]

/- ## Helper lemmas -/

/-- Pixel lookup commutes with elementwise combination of 2-D arrays. -/
theorem getPix_zipWith2D (f : α → β → γ) (a : List (List α)) (b : List (List β))
    (i j : Nat) (x : α) (y : β) (hx : getPix a i j = some x) (hy : getPix b i j = some y) :
    getPix (zipWith2D f a b) i j = some (f x y) := by
  simp only [getPix] at hx hy
  rcases Option.bind_eq_some.mp hx with ⟨ra, hra, hxj⟩
  rcases Option.bind_eq_some.mp hy with ⟨rb, hrb, hyj⟩
  simp [getPix, zipWith2D, List.getElem?_zipWith, hra, hrb, hxj, hyj]

/-- In a list sorted ascending, the elements strictly below a bound form
exactly the prefix up to the left insertion position of the bound. -/
theorem filter_lt_eq_take :
    ∀ (x : Nat) (l : List Nat), List.Sorted (· ≤ ·) l →
      (l.filter fun t => decide (t < x)) = l.take (l.findIdx fun t => decide (x ≤ t)) := by
  intro x l
  induction l with
  | nil => intro _; rfl
  | cons a l ih =>
    intro h
    rcases List.sorted_cons.mp h with ⟨ha, hl⟩
    by_cases hx : x ≤ a
    · have h1 : ¬a < x := by omega
      have hnil : List.filter (fun t => decide (t < x)) l = [] := by
        rw [List.filter_eq_nil_iff]
        intro u hu
        have := ha u hu
        simp only [decide_eq_true_eq]
        omega
      simp [List.filter_cons, List.findIdx_cons, hx, h1, hnil]
    · have h2 : a < x := by omega
      simp [List.filter_cons, List.findIdx_cons, hx, h2, ih hl]

/-- In a list sorted ascending, the elements strictly above a bound form
exactly the suffix from the right insertion position of the bound. -/
theorem filter_gt_eq_drop :
    ∀ (x : Nat) (l : List Nat), List.Sorted (· ≤ ·) l →
      (l.filter fun t => decide (x < t)) = l.drop (l.findIdx fun t => decide (x < t)) := by
  intro x l
  induction l with
  | nil => intro _; rfl
  | cons a l ih =>
    intro h
    rcases List.sorted_cons.mp h with ⟨ha, hl⟩
    by_cases hx : x < a
    · have hfl : List.filter (fun t => decide (x < t)) l = l := by
        rw [List.filter_eq_self]
        intro u hu
        have := ha u hu
        simp only [decide_eq_true_eq]
        omega
      simp [List.filter_cons, List.findIdx_cons, hx, hfl]
    · simp [List.filter_cons, List.findIdx_cons, hx, ih hl]

/-- In a list sorted ascending, every element is at most the last one. -/
theorem sorted_le_getLast :
    ∀ (l : List Nat), List.Sorted (· ≤ ·) l → ∀ t, l.getLast? = some t → ∀ u ∈ l, u ≤ t := by
  intro l
  induction l with
  | nil => intro _ t ht; cases ht
  | cons a l ih =>
    intro hs t ht u hu
    rcases List.sorted_cons.mp hs with ⟨ha, hl⟩
    cases l with
    | nil =>
      simp only [List.getLast?_singleton, Option.some.injEq] at ht
      simp only [List.mem_singleton] at hu
      omega
    | cons b m =>
      rw [List.getLast?_cons_cons] at ht
      rcases List.mem_cons.mp hu with rfl | hu'
      · have hub : u ≤ b := ha b (by simp)
        have hbt : b ≤ t := ih hl t ht b (by simp)
        omega
      · exact ih hl t ht u hu'

/- ## Claim theorems -/

/-- Counterexample to claim C1 on a catalog with acquisitions at 10:00 on
days 0, 14 and 24, start day 2 and end day 9: both selections succeed, the
selected post-event timestamp is day 24 at 10:00, yet day 14 at 10:00 is a
catalog timestamp not earlier than end-of-day of day 9 and strictly earlier
than the selection, so the selected post-event item is not the one with the
earliest timestamp not earlier than end-of-day(end date). -/
theorem c1_counterexample :
    get_closest_elem catThree 2 true = some (10 * usPerHour) ∧
    get_closest_elem catThree 9 false = some (24 * usPerDay + 10 * usPerHour) ∧
    (14 * usPerDay + 10 * usPerHour) ∈ stripTs catThree ∧
    endOfDay 9 ≤ 14 * usPerDay + 10 * usPerHour ∧
    ¬(24 * usPerDay + 10 * usPerHour ≤ 14 * usPerDay + 10 * usPerHour) := by decide

/-- Claim C1 as amended: for every catalog list of at least 2 items,
whenever some stripped acquisition timestamp is strictly earlier than
start-of-day(start date), the selected pre-event timestamp is the latest
one strictly earlier than start-of-day (equality is excluded by the left
insertion rule); and the post-event selection equals the second-smallest
sorted timestamp strictly later than end-of-day(end date) when it exists
(an IndexError otherwise), not the earliest such timestamp. -/
theorem c1_amended :
    ∀ (l : List CatalogItem) (s e : Nat), 2 ≤ l.length →
      ((∃ u ∈ stripTs l, u < startOfDay s) →
        ∃ t, get_closest_elem l s true = some t ∧ t < startOfDay s ∧
          ∀ u ∈ stripTs l, u < startOfDay s → u ≤ t) ∧
      get_closest_elem l e false =
        ((sortTs l).filter fun u => decide (endOfDay e < u))[1]? := by
  intro l s e _
  have hsort : List.Sorted (· ≤ ·) (sortTs l) := List.sorted_insertionSort _ _
  have hperm : List.Perm (sortTs l) (stripTs l) := List.perm_insertionSort _ _
  constructor
  · rintro ⟨u, hu, hult⟩
    have hmemu : u ∈ sortTs l := hperm.mem_iff.mpr hu
    have hufilt : u ∈ (sortTs l).filter fun t => decide (t < startOfDay s) :=
      List.mem_filter.mpr ⟨hmemu, by simpa using hult⟩
    have hfeq : ((sortTs l).filter fun t => decide (t < startOfDay s)) =
        (sortTs l).take ((sortTs l).findIdx fun t => decide (startOfDay s ≤ t)) :=
      filter_lt_eq_take (startOfDay s) (sortTs l) hsort
    have hine : (sortTs l).take ((sortTs l).findIdx fun t => decide (startOfDay s ≤ t)) ≠ [] := by
      rw [← hfeq]
      intro hnil
      rw [hnil] at hufilt
      cases hufilt
    have hi1 : 1 ≤ (sortTs l).findIdx fun t => decide (startOfDay s ≤ t) := by
      by_contra hcon
      have h0 : ((sortTs l).findIdx fun t => decide (startOfDay s ≤ t)) = 0 := by omega
      rw [h0, List.take_zero] at hine
      exact hine rfl
    have hiL : ((sortTs l).findIdx fun t => decide (startOfDay s ≤ t)) ≤ (sortTs l).length :=
      List.findIdx_le_length _
    have hlen : ((sortTs l).take ((sortTs l).findIdx fun t => decide (startOfDay s ≤ t))).length
        = (sortTs l).findIdx fun t => decide (startOfDay s ≤ t) := by
      rw [List.length_take]
      omega
    have h0 : get_closest_elem l s true =
        pyGet (sortTs l) (Int.ofNat ((sortTs l).findIdx fun t => decide (startOfDay s ≤ t)) - 1) :=
      rfl
    have hnn : 0 ≤ Int.ofNat ((sortTs l).findIdx fun t => decide (startOfDay s ≤ t)) - 1 := by
      simp only [Int.ofNat_eq_coe]
      omega
    have htoNat : (Int.ofNat ((sortTs l).findIdx fun t => decide (startOfDay s ≤ t)) - 1).toNat =
        ((sortTs l).findIdx fun t => decide (startOfDay s ≤ t)) - 1 := by
      simp only [Int.ofNat_eq_coe]
      omega
    have hidx : get_closest_elem l s true =
        (sortTs l)[((sortTs l).findIdx fun t => decide (startOfDay s ≤ t)) - 1]? := by
      rw [h0, pyGet, if_pos hnn, htoNat]
    have him : ((sortTs l).findIdx fun t => decide (startOfDay s ≤ t)) - 1 <
        (sortTs l).findIdx fun t => decide (startOfDay s ≤ t) := by omega
    have him2 : ((sortTs l).findIdx fun t => decide (startOfDay s ≤ t)) - 1 <
        ((sortTs l).take ((sortTs l).findIdx fun t => decide (startOfDay s ≤ t))).length := by
      omega
    obtain ⟨t, htval⟩ : ∃ t,
        ((sortTs l).take ((sortTs l).findIdx fun t => decide (startOfDay s ≤ t)))[
          ((sortTs l).findIdx fun t => decide (startOfDay s ≤ t)) - 1]? = some t :=
      ⟨_, List.getElem?_eq_getElem him2⟩
    refine ⟨t, ?_, ?_, ?_⟩
    · rw [hidx, ← List.getElem?_take_of_lt him]
      exact htval
    · have htmem : t ∈ (sortTs l).filter fun t => decide (t < startOfDay s) := by
        rw [hfeq]
        exact List.getElem?_mem htval
      have := (List.mem_filter.mp htmem).2
      simpa using this
    · intro v hv hvlt
      have hvmem : v ∈ (sortTs l).filter fun t => decide (t < startOfDay s) :=
        List.mem_filter.mpr ⟨hperm.mem_iff.mpr hv, by simpa using hvlt⟩
      have hsf : List.Sorted (· ≤ ·) ((sortTs l).filter fun t => decide (t < startOfDay s)) :=
        hsort.filter _
      have hlast : ((sortTs l).filter fun t => decide (t < startOfDay s)).getLast? = some t := by
        rw [List.getLast?_eq_getElem?, hfeq, hlen]
        exact htval
      exact sorted_le_getLast _ hsf _ hlast v hvmem
  · have h0 : get_closest_elem l e false =
        pyGet (sortTs l) (Int.ofNat ((sortTs l).findIdx fun t => decide (endOfDay e < t)) + 1) :=
      rfl
    have hnn : 0 ≤ Int.ofNat ((sortTs l).findIdx fun t => decide (endOfDay e < t)) + 1 := by
      simp only [Int.ofNat_eq_coe]
      omega
    have htoNat : (Int.ofNat ((sortTs l).findIdx fun t => decide (endOfDay e < t)) + 1).toNat =
        ((sortTs l).findIdx fun t => decide (endOfDay e < t)) + 1 := by
      simp only [Int.ofNat_eq_coe]
      omega
    rw [h0, pyGet, if_pos hnn, htoNat, filter_gt_eq_drop (endOfDay e) (sortTs l) hsort,
      List.getElem?_drop]

/-- Witness for the amended C1 on the catalog with acquisitions at 10:00 on
days 0, 14 and 24, start day 2 and end day 9. -/
theorem c1_amended_witness :
    (∃ t, get_closest_elem catThree 2 true = some t ∧ t < startOfDay 2 ∧
      ∀ u ∈ stripTs catThree, u < startOfDay 2 → u ≤ t) ∧
    get_closest_elem catThree 9 false =
      ((sortTs catThree).filter fun u => decide (endOfDay 9 < u))[1]? :=
  ⟨(c1_amended catThree 2 9 (by decide)).1 ⟨10 * usPerHour, by decide, by decide⟩,
    (c1_amended catThree 2 9 (by decide)).2⟩

/-- Claim C2: on the literal scenario catalog (acquisitions at 10:00 on
2023-01-01/05/15/25) with start 2023-01-03 and end 2023-01-20, the date
matcher is claimed to select the 2023-01-01 item as pre-event and the
2023-01-25 item as post-event without error.  Evaluating the embedded code:
pre-event selection indeed returns the 2023-01-01T10:00 timestamp, but
post-event selection indexes position 4 of the 4-element sorted list
(`searchsorted` right position 3 plus one) and raises IndexError, embedded
as `none`. -/
theorem c2_code_eval :
    get_closest_elem catFour 2 true = some (10 * usPerHour) ∧
    get_closest_date catFour 2 true = some 0 ∧
    get_closest_elem catFour 19 false = none ∧
    get_closest_date catFour 19 false = none := by decide

/-- Claim C3: when start-of-day of the start date precedes every catalog
timestamp, pre-event selection is claimed to signal a no-covering-scene
error and never read another element.  Evaluating the embedded code on a
catalog whose items (days 4 and 9 at 10:00) all lie after day 0: the left
insertion position is 0, the code indexes position -1, and Python negative
indexing silently wraps around to the LAST element, so the latest catalog
item is returned with no error. -/
theorem c3_code_eval :
    (∀ u ∈ stripTs catTwo, startOfDay 0 < u) ∧
    get_closest_elem catTwo 0 true = some (9 * usPerDay + 10 * usPerHour) ∧
    get_closest_date catTwo 0 true = some 9 := by decide

/-- Claim C4: wherever NIR and SWIR are defined and NIR + SWIR is nonzero,
the computed NBR pixel is exactly (NIR - SWIR) / (NIR + SWIR); in
particular NIR = [[4,4]] and SWIR = [[2,2]] give [[1/3, 1/3]]. -/
theorem c4_nbr_formula :
    (∀ (nir swir : QRaster) (i j : Nat) (x y : ℚ),
        getPix nir.arr i j = some x → getPix swir.arr i j = some y → x + y ≠ 0 →
        getPix (nbr_event nir swir).1.arr i j = some (PixVal.num ((x - y) / (x + y))))
    ∧ (nbr_event ⟨[[4, 4]], 0, 0, 0⟩ ⟨[[2, 2]], 0, 0, 0⟩).1.arr =
        [[PixVal.num (1 / 3), PixVal.num (1 / 3)]] := by
  constructor
  · intro nir swir i j x y hx hy hne
    have h := getPix_zipWith2D (fun x y => npDiv (x - y) (x + y)) nir.arr swir.arr i j x y hx hy
    simpa [nbr_event, nbr_arr, npDiv, hne] using h
  · norm_num [nbr_event, nbr_arr, zipWith2D, npDiv]

/-- Witness for C4 at the concrete bands NIR = [[4,4]], SWIR = [[2,2]]. -/
theorem c4_nbr_formula_witness :
    getPix (nbr_event ⟨[[4, 4]], 0, 0, 0⟩ ⟨[[2, 2]], 0, 0, 0⟩).1.arr 0 0 =
      some (PixVal.num (1 / 3)) := by
  have h := c4_nbr_formula.1 ⟨[[4, 4]], 0, 0, 0⟩ ⟨[[2, 2]], 0, 0, 0⟩ 0 0 4 2
    (by norm_num [getPix]) (by norm_num [getPix]) (by norm_num)
  norm_num at h
  exact h

/-- Counterexample to claim C5: at a pixel where NIR + SWIR = 0 (here NIR =
SWIR = 0) the code makes no explicit choice; the embedded computation
produces the propagated division artifact NaN, which is not the nodata
value of the in-memory result raster. -/
theorem c5_counterexample :
    getPix (nbr_event ⟨[[0]], 0, 0, 7⟩ ⟨[[0]], 0, 0, 7⟩).1.arr 0 0 = some PixVal.nan ∧
    (nbr_event ⟨[[0]], 0, 0, 7⟩ ⟨[[0]], 0, 0, 7⟩).1.nodata = 7 ∧
    PixVal.nan ≠ PixVal.num 7 := by
  refine ⟨?_, rfl, by simp⟩
  norm_num [nbr_event, nbr_arr, zipWith2D, npDiv, getPix]

/-- Claim C5 as amended: at every pixel where NIR + SWIR = 0 the NBR
computation propagates a non-finite floating-point artifact (NaN or a
signed infinity) into the output raster, with no explicit nodata
mapping. -/
theorem c5_amended :
    ∀ (nir swir : QRaster) (i j : Nat) (x y : ℚ),
      getPix nir.arr i j = some x → getPix swir.arr i j = some y → x + y = 0 →
      ∃ v, getPix (nbr_event nir swir).1.arr i j = some v ∧ v.isFinite = false := by
  intro nir swir i j x y hx hy h0
  refine ⟨npDiv (x - y) (x + y), ?_, ?_⟩
  · exact getPix_zipWith2D (fun x y => npDiv (x - y) (x + y)) nir.arr swir.arr i j x y hx hy
  · rw [npDiv, if_pos h0]
    split
    · rfl
    · split <;> rfl

/-- Witness for the amended C5 at the concrete zero bands. -/
theorem c5_amended_witness :
    ∃ v, getPix (nbr_event ⟨[[0]], 0, 0, 7⟩ ⟨[[0]], 0, 0, 7⟩).1.arr 0 0 = some v ∧
      v.isFinite = false :=
  c5_amended ⟨[[0]], 0, 0, 7⟩ ⟨[[0]], 0, 0, 7⟩ 0 0 0 0 (by norm_num [getPix])
    (by norm_num [getPix]) (by norm_num)

/-- Claim C6: when the pre- and post-event NBR shapes differ, the pre-event
raster is warped onto the CRS, nodata and grid of the post-event raster, so
both results have the post-event shape; when the shapes already agree both
rasters pass through unchanged. -/
theorem c6_check_geometries :
    ∀ (pre post : GImage),
      (pre.shape ≠ post.shape →
        check_geometries pre post = (GImage.warp pre post.crs post.nodata post, post) ∧
        (check_geometries pre post).1.shape = post.shape ∧
        (check_geometries pre post).1.crs = post.crs ∧
        (check_geometries pre post).1.nodata = post.nodata ∧
        (check_geometries pre post).2 = post) ∧
      (pre.shape = post.shape → check_geometries pre post = (pre, post)) := by
  intro pre post
  constructor
  · intro hne
    simp [check_geometries, hne, GImage.warp]
  · intro heq
    simp [check_geometries, heq]

/-- Witness for C6: shapes (100,100) against (98,98) yield two rasters of
shape (98,98); equal shapes pass through unchanged. -/
theorem c6_check_geometries_witness :
    ((check_geometries ⟨(100, 100), 1, 5⟩ ⟨(98, 98), 2, 9⟩).1.shape = (98, 98) ∧
      (check_geometries ⟨(100, 100), 1, 5⟩ ⟨(98, 98), 2, 9⟩).2.shape = (98, 98)) ∧
    check_geometries ⟨(98, 98), 2, 9⟩ ⟨(98, 98), 2, 9⟩ = (⟨(98, 98), 2, 9⟩, ⟨(98, 98), 2, 9⟩) := by
  constructor
  · have h := (c6_check_geometries ⟨(100, 100), 1, 5⟩ ⟨(98, 98), 2, 9⟩).1 (by decide)
    refine ⟨h.2.1, ?_⟩
    rw [h.2.2.2.2]
  · exact (c6_check_geometries ⟨(98, 98), 2, 9⟩ ⟨(98, 98), 2, 9⟩).2 rfl

/-- Claim C7: the catalog-result check fails with the data-availability
error exactly when fewer than 2 items were retrieved, and with fewer than 2
items `get_data` stops with that error before the download loop runs. -/
theorem c7_check_items :
    ∀ (l : List CatalogItem),
      (check_items l = Except.ok () ↔ 2 ≤ l.length) ∧
      (l.length < 2 →
        check_items l = Except.error (insufficientMsg l.length) ∧
        ∀ (matchFn : CatalogItem → Nat → Bool) (s e : Nat),
          get_data matchFn l s e = Except.error (insufficientMsg l.length)) := by
  intro l
  have hc : l.length < 2 → check_items l = Except.error (insufficientMsg l.length) := by
    intro hlt
    unfold check_items
    rw [if_pos hlt]
  constructor
  · constructor
    · intro hok
      by_cases h : l.length < 2
      · rw [hc h] at hok
        exact absurd hok (by simp)
      · omega
    · intro hle
      unfold check_items
      rw [if_neg (by omega)]
  · intro hlt
    refine ⟨hc hlt, ?_⟩
    intro matchFn s e
    unfold get_data
    rw [hc hlt]

/-- Witness for C7: one item fails before any download, two items pass the
check. -/
theorem c7_check_items_witness :
    check_items [(⟨startOfDay 1⟩ : CatalogItem)] = Except.error (insufficientMsg 1) ∧
    get_data (fun _ _ => false) [(⟨startOfDay 1⟩ : CatalogItem)] 0 0 =
      Except.error (insufficientMsg 1) ∧
    check_items [(⟨startOfDay 1⟩ : CatalogItem), ⟨startOfDay 2⟩] = Except.ok () := by
  have h1 := (c7_check_items [(⟨startOfDay 1⟩ : CatalogItem)]).2 (by decide)
  have h2 := (c7_check_items [(⟨startOfDay 1⟩ : CatalogItem), ⟨startOfDay 2⟩]).1.mpr (by decide)
  exact ⟨h1.1, h1.2 (fun _ _ => false) 0 0, h2⟩

/-- Claim C8: a polygon geometry given as the AOI input is claimed to
resolve to its own extent.  Evaluating the embedded dispatch of
`AOI.__init__`: for any environment and any polygon, the call raises the
`TypeError` thrown inside `data_dir.joinpath(data)`, because the
`isinstance(data_dir.joinpath(data), Path)` test runs before the
`isinstance(data, Polygon)` branch, which is therefore unreachable. -/
theorem c8_polygon_input :
    ∀ (wktParse : String → Option (ℚ × ℚ × ℚ × ℚ)) (fileExists : String → Bool)
      (features : String → List SPolygon) (dataDir : String) (poly : SPolygon),
      aoi_init wktParse fileExists features dataDir (AOIInput.polyData poly) =
        Except.error joinpathTypeErrorMsg := by
  intro _ _ _ _ _
  rfl

/-- Claim C9: every raster handle an event opened is claimed to be released
exactly once on every exit path.  Evaluating the embedded traces: on the
normal path both handles are closed once each, but when the NIR band is
missing after the SWIR raster was opened, `__exit__` raises on
`self.nir.close()` (nir is None) before reaching `self.swir.close()`, so
the opened SWIR handle (0) is never released. -/
theorem c9_missing_nir_leak :
    event_scope_trace true true = ([0, 1], [1, 0], false) ∧
    event_scope_trace true false = ([0], [], true) := by decide

/-- Claim C10: every persisted raster (multi-tile mosaic, per-event NBR,
final dNBR) is written with the fixed nodata sentinel 0, whatever nodata
the inputs or the in-memory result raster carry; hence a computed pixel
value of exactly 0 coincides with the persisted nodata sentinel. -/
theorem c10_nodata_zero :
    ∀ (tiles : List QRaster) (nir swir pre post : QRaster),
      (merge_tiles_write tiles).nodataOut = 0 ∧
      ((nbr_event nir swir).2).nodataOut = 0 ∧
      ((nbr_event nir swir).1).nodata = nir.nodata ∧
      ((dnbr_compute pre post).2).nodataOut = 0 ∧
      ((dnbr_compute pre post).1).nodata = pre.nodata ∧
      (∀ v : ℚ, v = ((dnbr_compute pre post).2).nodataOut ↔ v = 0) := by
  intro tiles nir swir pre post
  exact ⟨rfl, rfl, rfl, rfl, rfl, fun v => Iff.rfl⟩

end Demeter
